import Mathlib

/-!
Verification of the django-components repository: a shallow embedding of
`django_components/component.py`, `django_components/templatetags/component_tags.py`
and `django_components/middleware.py`, together with theorems settling the
specification claims about argument resolution, slot reconciliation, context
isolation and dependency-placeholder substitution.
-/

set_option autoImplicit false

/-- Python values that flow through the component layer in the modelled
fragment: strings, ints, booleans, `None`, the `Ellipsis` sentinel used to mark
required props, and opaque references to the per-response dependency-tracking
set (identified by a `Nat` reference id, since the set object itself is only
passed around by reference on the modelled paths). -/
inductive Value where
  | ellipsis : Value
  | pyNone : Value
  | bool : Bool → Value
  | str : String → Value
  | int : Int → Value
  | depSet : Nat → Value
deriving DecidableEq, Repr

/-- The Python exceptions raised by the modelled code paths. -/
inductive PyErr where
  | typeError : String → PyErr
  | syntaxError : String → PyErr
  | improperlyConfigured : String → PyErr
deriving DecidableEq, Repr

/-- `true` exactly when a computation raised a Python `TypeError`. -/
def isTypeError {α : Type} : Except PyErr α → Bool
  | .error (.typeError _) => true
  | _ => false

/-- `true` exactly when a computation returned normally. -/
def isOk {α : Type} : Except PyErr α → Bool
  | .ok _ => true
  | _ => false

/-! ### Python dict model

Python dicts are modelled as insertion-ordered association lists with unique
keys maintained by `dinsert` (inserting an existing key overwrites the value in
place, a new key is appended), matching CPython dict semantics. -/

/-- Lookup in an association list (Python `d[k]` / `d.get(k)`). -/
def alookup {α : Type} : List (String × α) → String → Option α
  | [], _ => none
  | (k, v) :: rest, key => if k = key then some v else alookup rest key

/-- Python dict assignment `d[k] = v`: overwrite in place if the key exists,
else append at the end (CPython dicts preserve insertion order). -/
def dinsert {α : Type} : List (String × α) → String → α → List (String × α)
  | [], k, v => [(k, v)]
  | (a, b) :: rest, k, v =>
    if a = k then (k, v) :: rest else (a, b) :: dinsert rest k v

/-- Python `d.update(entries)`: insert each entry in order. -/
def dupdate {α : Type} (d : List (String × α)) (entries : List (String × α)) :
    List (String × α) :=
  entries.foldl (fun acc p => dinsert acc p.1 p.2) d

/-- Python dict built from a list of pairs (dict literal / comprehension):
later entries with the same key overwrite earlier ones. -/
def dofList {α : Type} (entries : List (String × α)) : List (String × α) :=
  dupdate [] entries

/-- Python `d.get(k, default)`. -/
def dgetD {α : Type} (d : List (String × α)) (k : String) (default : α) : α :=
  (alookup d k).getD default

/-! ### `component.py`: prop declarations and `Component.context` -/

/-- An entry of the class attribute `positional_props`: the source accepts a
bare name (a required prop) or a `(name, default)` pair, where a default of
`Ellipsis` again means required.  Bare strings are exactly the non-iterable
entries in the source's `is_iterable` test (strings are excluded there), pairs
are the iterable ones. -/
inductive PosProp where
  | name : String → PosProp
  | pair : String → Value → PosProp
deriving DecidableEq, Repr

/-- `is_optional_arg(arg)` from `component.py`: iterable (i.e. a pair, not a
bare string) and its second element is not `Ellipsis`. -/
def is_optional_arg : PosProp → Bool
  | .name _ => false
  | .pair _ v => decide (v ≠ Value.ellipsis)

/-- The positional-prop validation performed by `Component.__init_subclass__`
(lines 131-140): consume the iterator while entries are non-optional; once an
optional entry is seen, every remaining entry must be optional, else
`SyntaxError` is raised.  If the iterator is exhausted while skipping required
entries (`StopIteration`), the declaration is accepted. -/
def validate_positional_props (props : List PosProp) : Except PyErr Unit :=
  match props.dropWhile (fun p => !is_optional_arg p) with
  | [] => .ok ()
  | _ :: rest =>
    if rest.all (fun p => is_optional_arg p) then .ok ()
    else .error (.syntaxError "Required positional argument follows optional argument")

/-- The name of a `positional_props` entry. -/
def posName : PosProp → String
  | .name n => n
  | .pair n _ => n

/-- The default of a `positional_props` entry (`Ellipsis` for a bare name). -/
def posDefault : PosProp → Value
  | .name _ => Value.ellipsis
  | .pair _ v => v

/-- The declared shape of a `Component` subclass: the class attributes consumed
by `context()` plus whether the class declares non-empty `Media`
(`str(self.media) != ''` in `component_tags.py`). -/
structure ComponentClass where
  positional_props : List PosProp
  keyword_props : List (String × Value)
  nonshadowing_keyword_props : List String
  allow_arbitrary_keyword_props : Bool
  mediaNonempty : Bool
deriving DecidableEq, Repr

/-- `cls._positional_prop_names` as computed by `__init_subclass__`. -/
def positional_prop_names (cc : ComponentClass) : List String :=
  cc.positional_props.map posName

/-- `cls._positional_prop_defaults` as computed by `__init_subclass__`
(a dict, so duplicate names keep the last default). -/
def positional_prop_defaults (cc : ComponentClass) : List (String × Value) :=
  dofList (cc.positional_props.map (fun p => (posName p, posDefault p)))

/-- The default-assignment branches of the merge loop (lines 178-181 of
`component.py`): if the name has a declared positional default assign it, else
fall back to the keyword default, else leave `final_positional_args`
unchanged. -/
def contextDefaultAssign (posDefaults kwProps fpa : List (String × Value))
    (name : String) : List (String × Value) :=
  match alookup posDefaults name with
  | some d => dinsert fpa name d
  | none =>
    match alookup kwProps name with
    | some d => dinsert fpa name d
    | none => fpa

/-- One iteration of the `for name in self._positional_prop_names` loop in
`Component.context` (lines 169-183).  The two `continue` branches skip the
trailing `Ellipsis` check; the default branches fall through to it. -/
def contextStep (provided kwargs posDefaults kwProps : List (String × Value))
    (fpa : List (String × Value)) (name : String) :
    Except PyErr (List (String × Value)) :=
  match alookup provided name with
  | some v =>
    if (alookup kwargs name).isSome then
      .error (.typeError ("Received multiple values for argument " ++ name))
    else .ok (dinsert fpa name v)
  | none =>
    match alookup kwargs name with
    | some v => .ok (dinsert fpa name v)
    | none =>
      if dgetD (contextDefaultAssign posDefaults kwProps fpa name) name Value.ellipsis
          = Value.ellipsis then
        .error (.typeError ("Missing required positional argument " ++ name))
      else .ok (contextDefaultAssign posDefaults kwProps fpa name)

/-- The `for name in self._positional_prop_names` loop of `Component.context`,
threading `final_positional_args` and stopping at the first raised error. -/
def contextLoop (provided kwargs posDefaults kwProps : List (String × Value)) :
    List String → List (String × Value) → Except PyErr (List (String × Value))
  | [], fpa => .ok fpa
  | n :: rest, fpa =>
    match contextStep provided kwargs posDefaults kwProps fpa n with
    | .error e => .error e
    | .ok fpa' => contextLoop provided kwargs posDefaults kwProps rest fpa'

/-- `extra_kwargs` (lines 185-186 of `component.py`): supplied keywords that
are neither declared positional names, declared keyword props, nor
non-shadowing keyword props. -/
def context_extra_kwargs (cc : ComponentClass) (kwargs : List (String × Value)) :
    List (String × Value) :=
  kwargs.filter (fun kv =>
    !((positional_prop_names cc).contains kv.1)
      && (alookup cc.keyword_props kv.1).isNone
      && !(cc.nonshadowing_keyword_props.contains kv.1))

/-- `missing_kwargs` (lines 190-191 of `component.py`): declared keyword props
not supplied in `kwargs` whose default is the required sentinel `Ellipsis`. -/
def context_missing_kwargs (cc : ComponentClass) (kwargs : List (String × Value)) :
    List (String × Value) :=
  cc.keyword_props.filter (fun kv =>
    (alookup kwargs kv.1).isNone && decide (kv.2 = Value.ellipsis))

/-- `Component.context(*args, **kwargs)` (lines 157-198), translated
statement by statement:
arity check; the zip of declared names with supplied positional values; the
merge loop; the unexpected-keyword check; the missing-required-keyword check;
and the final `dict(final_positional_args, **self.keyword_props)` followed by
`all_args.update(**kwargs)`. -/
def Component.context (cc : ComponentClass) (args : List Value)
    (kwargs : List (String × Value)) : Except PyErr (List (String × Value)) :=
  if args.length > (positional_prop_names cc).length then
    .error (.typeError "Received unexpected positional props")
  else
    match contextLoop (dofList ((positional_prop_names cc).zip args)) kwargs
        (positional_prop_defaults cc) cc.keyword_props (positional_prop_names cc) [] with
    | .error e => .error e
    | .ok final_positional_args =>
      if !(context_extra_kwargs cc kwargs).isEmpty
          && !cc.allow_arbitrary_keyword_props then
        .error (.typeError "Received unexpected positional arguments")
      else
        if !(context_missing_kwargs cc kwargs).isEmpty then
          .error (.typeError "Missing required keyword arguments")
        else
          .ok (dupdate (dupdate final_positional_args cc.keyword_props) kwargs)

/-! ### `component_tags.py`: contexts, argument expressions and `ComponentNode` -/

/-- The key under which the per-response dependency-tracking set is stored
(`middleware.py`). -/
def RENDERED_COMPONENTS_CONTEXT_KEY : String := "_COMPONENT_DEPENDENCIES"

/-- A Django template `Context` is a stack of dicts; we keep the most recently
pushed layer first.  `context.update(d)` pushes `d`, lookup scans from the top
layer down. -/
def Ctx : Type := List (List (String × Value))

/-- Django `Context.__getitem__` / `__contains__`: scan layers from the most
recently pushed one. -/
def ctxLookup : Ctx → String → Option Value
  | [], _ => none
  | layer :: rest, k =>
    match alookup layer k with
    | some v => some v
    | none => ctxLookup rest k

/-- The builtins layer every fresh Django context starts with. -/
def builtins : List (String × Value) :=
  [("True", Value.bool true), ("False", Value.bool false), ("None", Value.pyNone)]

/-- Django `Context.new()`: a fresh context holding only the builtins layer,
none of the caller's variable layers. -/
def Ctx.new : Ctx := [builtins]

/-- Django `context[k] = v`: assign into the top (most recently pushed) dict. -/
def ctxSet : Ctx → String → Value → Ctx
  | [], k, v => [[(k, v)]]
  | layer :: rest, k, v => dinsert layer k v :: rest

/-- An unresolved template-tag argument: a literal, or a variable reference to
be resolved against the caller's context. -/
inductive Expr where
  | lit : Value → Expr
  | var : String → Expr
deriving DecidableEq, Repr

/-- `safe_resolve(context_item, context)`: literals pass through unchanged;
a Django `FilterExpression` over a missing variable resolves to the engine's
`string_if_invalid`, which defaults to the empty string. -/
def safe_resolve (ctx : Ctx) : Expr → Value
  | .lit v => v
  | .var n => (ctxLookup ctx n).getD (Value.str "")

/-- A parsed top-level node of a component's template: literal text, a
variable node, or a `slot` block node carrying its default nodelist. -/
inductive TNode where
  | text : String → TNode
  | vr : String → TNode
  | slot : String → List TNode → TNode

/-- A compiled template: its top-level nodelist. -/
structure TemplateM where
  nodes : List TNode

/-- The entry a template node contributes to the `slots_in_template` dict
comprehension: only `slot` block nodes pass the `is_slot_node` filter. -/
def slotEntry : TNode → Option (String × List TNode)
  | .slot n nl => some (n, nl)
  | _ => none

/-- `BaseComponent.slots_in_template`: the name → nodelist dict comprehension
over the template's top-level nodes. -/
def BaseComponent.slots_in_template (tmpl : TemplateM) : List (String × List TNode) :=
  dofList (tmpl.nodes.filterMap slotEntry)

/-- Python evaluation of the set literal on line 67 of `component.py`,
`defined_slot_names = \x7bslots_in_template.keys()\x7d` (and the analogous
line 68): a one-element set literal whose sole element is a `dict.keys()`
view.  CPython must hash that element to build the set, and `dict_keys`
objects are unhashable, so the expression raises
`TypeError: unhashable type: 'dict_keys'` and never produces a value
(hence the `Empty` payload). -/
def setLiteralOfKeysView {α : Type} (_d : List (String × α)) : Except PyErr Empty :=
  .error (.typeError "unhashable type: dict_keys")

/-- `BaseComponent.render(self, context, slots_filled=None)` (lines 61-86).
Line 62 evaluates `dict(slots_filled)` before anything else, so a `None`
argument raises `TypeError: 'NoneType' object is not iterable`.  Otherwise the
template is fetched (modelled by the `tmpl` parameter), `slots_in_template` is
computed, and line 67 evaluates the set literal over the keys view, which
raises `TypeError` (see `setLiteralOfKeysView`); the slot-reconciliation code
on lines 69-86 is unreachable. -/
def BaseComponent.render (tmpl : TemplateM) (_ctx : Ctx)
    (slots_filled : Option (List (String × List TNode))) (_debug : Bool) :
    Except PyErr String :=
  match slots_filled with
  | none => .error (.typeError "NoneType object is not iterable")
  | some sf =>
    let _slots_filled := dofList sf
    let slots_in_template := BaseComponent.slots_in_template tmpl
    match setLiteralOfKeysView slots_in_template with
    | .error e => .error e
    | .ok emp => emp.elim

/-- The parsed `component` / `component_block` tag (`ComponentNode.__init__`):
the component (class) it instantiates, the unresolved argument expressions,
the call-site slot nodelists stored onto `component.slots`, and the isolation
flag. -/
structure ComponentNode where
  component : ComponentClass
  context_args : List Expr
  context_kwargs : List (String × Expr)
  slots : List (String × List TNode)
  isolated_context : Bool

/-- The ImproperlyConfigured message raised when a component with media is
rendered without the dependency-tracking context processor. -/
def improperlyConfiguredMsg : String :=
  "component_dependencies context processor must be used for components that have Media"

/-- Lines 103-110 of `component_tags.py`: if the dependency-tracking set is
present in the context it is looked up (and the component added to it — a
mutation of the shared set that is not observable in this render's return
value); if absent, `ImproperlyConfigured` is raised exactly when the component
has media and `settings.DEBUG` is on, else `rendered_components_set = None`. -/
def depCheck (cc : ComponentClass) (debug : Bool) (ctx : Ctx) :
    Except PyErr (Option Value) :=
  match ctxLookup ctx RENDERED_COMPONENTS_CONTEXT_KEY with
  | some v => .ok (some v)
  | none =>
    if cc.mediaNonempty && debug then
      .error (.improperlyConfigured improperlyConfiguredMsg)
    else .ok none

/-- `ComponentNode.render(self, context)` (lines 100-128), with the
component's `render` method — dynamic dispatch on `self.component` — taken as
the function parameter `renderFn`.
Line 101 stores `context.flatten()` into `self.component.outer_context`; that
attribute is never read on this render path, so the side effect does not touch
the output.  Lines 103-110 are `depCheck`.  Lines 114-118 resolve the stored
argument expressions against the caller's context and call
`Component.context`.  Lines 121-125: under the `only` flag the context is
replaced by `context.new()` plus the dependency-set back-reference.
Lines 127-128 push the component context as a scoped layer and call
`self.component.render(context)`. -/
def ComponentNode.renderWith (node : ComponentNode) (debug : Bool)
    (renderFn : Ctx → Except PyErr String) (ctx : Ctx) : Except PyErr String :=
  match depCheck node.component debug ctx with
  | .error e => .error e
  | .ok set? =>
    match Component.context node.component (node.context_args.map (safe_resolve ctx))
        (node.context_kwargs.map (fun p => (p.1, safe_resolve ctx p.2))) with
    | .error e => .error e
    | .ok component_context =>
      renderFn (component_context ::
        (if node.isolated_context then
          match set? with
          | some v => ctxSet Ctx.new RENDERED_COMPONENTS_CONTEXT_KEY v
          | none => Ctx.new
        else ctx))

/-- `ComponentNode.render` with the component's actual `render` method wired
in: components inherit `BaseComponent.render`, and line 128 calls
`self.component.render(context)` with only the context argument, so
`slots_filled` takes its declared default `None`; the slot contents stored
into `component.slots` by `ComponentNode.__init__` are not passed. -/
def ComponentNode.render (node : ComponentNode) (tmpl : TemplateM) (debug : Bool)
    (ctx : Ctx) : Except PyErr String :=
  node.renderWith debug (fun c => BaseComponent.render tmpl c none debug) ctx

/-! ### `middleware.py`: dependency placeholder substitution -/

/-- A rendered response body, tokenised by the middleware's alternation regex
`CSS_DEPENDENCY_PLACEHOLDER|JS_DEPENDENCY_PLACEHOLDER`: maximal stretches of
non-placeholder text, CSS placeholder occurrences, and JS placeholder
occurrences, in order.  The two placeholders are distinct fixed literals with
no regex metacharacters, so the regex matches exactly the placeholder
occurrences. -/
inductive Chunk where
  | text : String → Chunk
  | cssMarker : Chunk
  | jsMarker : Chunk
deriving DecidableEq, Repr

/-- Whether a chunk is the CSS placeholder. -/
def isCssMarker : Chunk → Bool
  | .cssMarker => true
  | _ => false

/-- Whether a chunk is the JS placeholder. -/
def isJsMarker : Chunk → Bool
  | .jsMarker => true
  | _ => false

/-- The stateful replacer object of `middleware.py`: it holds the combined CSS
markup and JS markup still to be emitted. -/
structure DependencyReplacer where
  css_string : String
  js_string : String

/-- `DependencyReplacer.__call__(match)`: emit the held string for the matched
placeholder kind and blank it, so later matches of the same kind produce the
empty string. -/
def DependencyReplacer.call (r : DependencyReplacer) :
    Chunk → String × DependencyReplacer
  | .cssMarker => (r.css_string, { r with css_string := "" })
  | .jsMarker => (r.js_string, { r with js_string := "" })
  | .text s => (s, r)

/-- `re.sub(dependency_regex, replacer, content)`: walk the tokenised body
left to right, copying text chunks and feeding each placeholder match to the
replacer, threading the replacer's state.  The result is the list of output
segments in order (the response body is their concatenation). -/
def reSub (r : DependencyReplacer) : List Chunk → List String
  | [] => []
  | .text s :: rest => s :: reSub r rest
  | .cssMarker :: rest =>
    let p := r.call .cssMarker
    p.1 :: reSub p.2 rest
  | .jsMarker :: rest =>
    let p := r.call .jsMarker
    p.1 :: reSub p.2 rest

/-- A structural indexed map, used to state the positional specification of
the substitution pass. -/
def mapWithIndex {α β : Type} (f : Nat → α → β) : List α → List β
  | [] => []
  | a :: l => f 0 a :: mapWithIndex (fun i x => f (i + 1) x) l

/-- Refinement target, following the spec's words: the first occurrence of
each placeholder kind is replaced with that kind's markup, every subsequent
occurrence of the same kind with the empty string, and text is kept
unchanged.  "First" is positional: a marker at index `i` is first when no
earlier chunk is a marker of the same kind. -/
def specReplace (css js : String) (body : List Chunk) : List String :=
  mapWithIndex (fun i c =>
    match c with
    | .text s => s
    | .cssMarker => if (body.take i).any isCssMarker then "" else css
    | .jsMarker => if (body.take i).any isJsMarker then "" else js) body

/-! ### Concrete components, templates and contexts used in closed instances -/

/-- Whether an exception is a `TypeError`. -/
def PyErr.isTE : PyErr → Bool
  | .typeError _ => true
  | _ => false

/-- The component of the spec's worked example:
`positional_props = ['title', ('subtitle', 'Untitled')]`, no keyword props. -/
def ccExample : ComponentClass :=
  { positional_props := [PosProp.name "title", PosProp.pair "subtitle" (Value.str "Untitled")]
    keyword_props := []
    nonshadowing_keyword_props := []
    allow_arbitrary_keyword_props := false
    mediaNonempty := false }

/-- A component declaring the same name `x` both as a required positional prop
and as a keyword prop with the non-required default `"d"`. -/
def ccOverlap : ComponentClass :=
  { positional_props := [PosProp.name "x"]
    keyword_props := [("x", Value.str "d")]
    nonshadowing_keyword_props := []
    allow_arbitrary_keyword_props := false
    mediaNonempty := false }

/-- A component with a single required positional prop `x`. -/
def ccPos : ComponentClass :=
  { positional_props := [PosProp.name "x"]
    keyword_props := []
    nonshadowing_keyword_props := []
    allow_arbitrary_keyword_props := false
    mediaNonempty := false }

/-- A component with a single required keyword prop `x`. -/
def ccKw : ComponentClass :=
  { positional_props := []
    keyword_props := [("x", Value.ellipsis)]
    nonshadowing_keyword_props := []
    allow_arbitrary_keyword_props := false
    mediaNonempty := false }

/-- A component with no props and no media. -/
def ccPlain : ComponentClass :=
  { positional_props := []
    keyword_props := []
    nonshadowing_keyword_props := []
    allow_arbitrary_keyword_props := false
    mediaNonempty := false }

/-- A component with no props that declares non-empty media. -/
def ccMedia : ComponentClass :=
  { positional_props := []
    keyword_props := []
    nonshadowing_keyword_props := []
    allow_arbitrary_keyword_props := false
    mediaNonempty := true }

/-- A template declaring slots `a` and `b` with default content. -/
def tmplAB : TemplateM :=
  { nodes := [TNode.text "before", TNode.slot "a" [TNode.text "defaultA"],
              TNode.slot "b" [TNode.text "defaultB"], TNode.text "after"] }

/-- A template with no slots. -/
def tmplPlain : TemplateM := { nodes := [TNode.text "body"] }

/-- A `component` tag invocation of `ccPlain` with a call-site slot stored
onto the component, no arguments, not isolated. -/
def nodePlain : ComponentNode :=
  { component := ccPlain
    context_args := []
    context_kwargs := []
    slots := [("a", [TNode.text "callerA"])]
    isolated_context := false }

/-- An isolated (`only`) invocation of `ccPos` passing the caller variable `x`
as the single positional argument. -/
def nodeIso : ComponentNode :=
  { component := ccPos
    context_args := [Expr.var "x"]
    context_kwargs := []
    slots := []
    isolated_context := true }

/-- An invocation of the media-declaring component with no arguments. -/
def nodeMedia : ComponentNode :=
  { component := ccMedia
    context_args := []
    context_kwargs := []
    slots := []
    isolated_context := false }

/-- A caller context exposing the dependency-tracking set. -/
def ctxWithDeps : Ctx := [[(RENDERED_COMPONENTS_CONTEXT_KEY, Value.depSet 0)]]

/-- A caller context binding `x` and an extra variable `y := "secretA"`. -/
def ctxOuterA : Ctx := [[("x", Value.str "1"), ("y", Value.str "secretA")]]

/-- Like `ctxOuterA` but with a different value for the unpassed variable
`y`. -/
def ctxOuterB : Ctx := [[("x", Value.str "1"), ("y", Value.str "secretB")]]

/-- A component render function that inspects the caller-scope variable `y`,
used to exhibit that isolated rendering cannot see it. -/
def renderProbeY : Ctx → Except PyErr String := fun c =>
  match ctxLookup c "y" with
  | some _ => .ok "saw y"
  | none => .ok "no y"

/-! ## Helper lemmas about the dict model -/

theorem alookup_append {α : Type} (d d' : List (String × α)) (k : String) :
    alookup (d ++ d') k =
      match alookup d k with
      | some v => some v
      | none => alookup d' k := by
  induction d with
  | nil => simp [alookup]
  | cons p rest ih =>
    obtain ⟨a, b⟩ := p
    by_cases h : a = k
    · simp [alookup, h]
    · simp [alookup, h, ih]

theorem alookup_dinsert_self {α : Type} (d : List (String × α)) (k : String) (v : α) :
    alookup (dinsert d k v) k = some v := by
  induction d with
  | nil => simp [dinsert, alookup]
  | cons p rest ih =>
    obtain ⟨a, b⟩ := p
    by_cases ha : a = k
    · simp [dinsert, ha, alookup]
    · simp [dinsert, ha, alookup, ih]

theorem alookup_dinsert_ne {α : Type} (d : List (String × α)) (k k' : String) (v : α)
    (h : k' ≠ k) :
    alookup (dinsert d k v) k' = alookup d k' := by
  induction d with
  | nil => simp [dinsert, alookup, Ne.symm h]
  | cons p rest ih =>
    obtain ⟨a, b⟩ := p
    by_cases ha : a = k
    · subst ha
      simp [dinsert, alookup, Ne.symm h]
    · simp [dinsert, ha, alookup, ih]

theorem alookup_mem {α : Type} (l : List (String × α)) (k : String) (v : α)
    (h : alookup l k = some v) : (k, v) ∈ l := by
  induction l with
  | nil => cases h
  | cons p rest ih =>
    obtain ⟨a, b⟩ := p
    by_cases ha : a = k
    · subst ha
      simp [alookup] at h
      subst h
      exact List.mem_cons_self _ _
    · simp [alookup, ha] at h
      exact List.mem_cons_of_mem _ (ih h)

theorem alookup_dupdate_isSome_left {α : Type} (l : List (String × α)) :
    ∀ (d : List (String × α)) (k : String), (alookup d k).isSome = true →
      (alookup (dupdate d l) k).isSome = true := by
  induction l with
  | nil =>
    intro d k h
    exact h
  | cons p rest ih =>
    intro d k h
    show (alookup (dupdate (dinsert d p.1 p.2) rest) k).isSome = true
    apply ih
    by_cases hk : k = p.1
    · subst hk
      rw [alookup_dinsert_self]
      rfl
    · rw [alookup_dinsert_ne _ _ _ _ hk]
      exact h

theorem alookup_dupdate_isSome_mem {α : Type} (l : List (String × α)) :
    ∀ (d : List (String × α)) (k : String) (v : α), (k, v) ∈ l →
      (alookup (dupdate d l) k).isSome = true := by
  induction l with
  | nil =>
    intro d k v h
    cases h
  | cons p rest ih =>
    intro d k v h
    cases h with
    | head =>
      show (alookup (dupdate (dinsert d k v) rest) k).isSome = true
      apply alookup_dupdate_isSome_left
      rw [alookup_dinsert_self]
      rfl
    | tail _ h' =>
      exact ih _ k v h'

theorem zip_mem_of_get {α : Type} :
    ∀ (names : List String) (args : List α) (i : Nat) (n : String),
      names.get? i = some n → i < args.length → ∃ v, (n, v) ∈ names.zip args := by
  intro names
  induction names with
  | nil =>
    intro args i n h _
    simp at h
  | cons m rest ih =>
    intro args i n h hi
    cases args with
    | nil => simp at hi
    | cons a args' =>
      cases i with
      | zero =>
        obtain rfl : m = n := by simpa using h
        exact ⟨a, by simp⟩
      | succ j =>
        obtain ⟨v, hv⟩ := ih args' j n (by simpa using h) (by simpa using hi)
        exact ⟨v, by simp [hv]⟩

/-! ## Claim theorems -/

/-- C6: for a component declaring
`positional_props = ['title', ('subtitle', 'Untitled')]` and no keyword props,
`context("Hello")` returns exactly the mapping
`{title: "Hello", subtitle: "Untitled"}`. -/
theorem context_example_title_subtitle :
    Component.context ccExample [Value.str "Hello"] [] =
      .ok [("title", Value.str "Hello"), ("subtitle", Value.str "Untitled")] := by
  rfl

/-- C1 (counterexample to the claimed precedence): for a component declaring
the same name `x` both as a positional prop and as a keyword prop with the
non-required default `"d"`, `context("v")` returns the keyword default `"d"`,
not the explicitly supplied positional value `"v"`: the final
`dict(final_positional_args, **self.keyword_props)` on line 195 of
`component.py` overlays keyword defaults over the already-resolved positional
values, contradicting the precedence stated in the comment on lines 167-168. -/
theorem context_keyword_default_clobbers_positional :
    Component.context ccOverlap [Value.str "v"] [] = .ok [("x", Value.str "d")] := by
  rfl

/-- C2 (evaluation of the code at the claimed scenario): rendering a component
whose template declares slots `a` and `b` with call-site overrides for `a` and
`c` does not perform slot reconciliation at all: line 67 of `component.py`
builds the one-element set literal over `slots_in_template.keys()`, whose
`dict_keys` element is unhashable, so `BaseComponent.render` raises
`TypeError` before any reconciliation. -/
theorem render_slots_raises_unhashable :
    BaseComponent.render tmplAB []
      (some [("a", [TNode.text "callerA"]), ("c", [TNode.text "callerC"])]) false =
      .error (.typeError "unhashable type: dict_keys") := by
  rfl

/-! ## Error classification for `Component.context` -/

theorem contextStep_error_isTE (p k pd kp fpa : List (String × Value)) (n : String)
    (e : PyErr) (h : contextStep p k pd kp fpa n = .error e) : e.isTE = true := by
  unfold contextStep at h
  cases hp : alookup p n with
  | some v =>
    simp only [hp] at h
    by_cases hk : (alookup k n).isSome = true
    · simp [hk] at h
      exact h.symm ▸ rfl
    · simp [hk] at h
  | none =>
    simp only [hp] at h
    cases hk : alookup k n with
    | some v => simp [hk] at h
    | none =>
      simp only [hk] at h
      by_cases hd : dgetD (contextDefaultAssign pd kp fpa n) n Value.ellipsis
          = Value.ellipsis
      · simp [hd] at h
        exact h.symm ▸ rfl
      · simp [hd] at h

theorem contextLoop_error_isTE (p k pd kp : List (String × Value)) :
    ∀ (names : List String) (fpa : List (String × Value)) (e : PyErr),
      contextLoop p k pd kp names fpa = .error e → e.isTE = true := by
  intro names
  induction names with
  | nil =>
    intro fpa e h
    cases h
  | cons n rest ih =>
    intro fpa e h
    unfold contextLoop at h
    cases hs : contextStep p k pd kp fpa n with
    | error e' =>
      rw [hs] at h
      simp at h
      exact h ▸ contextStep_error_isTE p k pd kp fpa n e' hs
    | ok fpa' =>
      rw [hs] at h
      exact ih fpa' e h

theorem contextLoop_error_of_step (p k pd kp : List (String × Value)) (n : String)
    (hstep : ∀ fpa, ∃ e, contextStep p k pd kp fpa n = .error e) :
    ∀ (names : List String) (fpa : List (String × Value)), n ∈ names →
      ∃ e, contextLoop p k pd kp names fpa = .error e := by
  intro names
  induction names with
  | nil =>
    intro fpa h
    cases h
  | cons m rest ih =>
    intro fpa hmem
    unfold contextLoop
    cases hs : contextStep p k pd kp fpa m with
    | error e => exact ⟨e, rfl⟩
    | ok fpa' =>
      rcases List.mem_cons.mp hmem with rfl | hmem'
      · obtain ⟨e, he⟩ := hstep fpa
        rw [hs] at he
        cases he
      · obtain ⟨e, he⟩ := ih fpa' hmem'
        exact ⟨e, he⟩

theorem context_error_isTE (cc : ComponentClass) (args : List Value)
    (kwargs : List (String × Value)) (e : PyErr)
    (h : Component.context cc args kwargs = .error e) : e.isTE = true := by
  unfold Component.context at h
  split at h
  · cases h
    rfl
  · split at h
    · next e' heq =>
      cases h
      exact contextLoop_error_isTE _ _ _ _ _ _ _ heq
    · split at h
      · cases h
        rfl
      · split at h
        · cases h
          rfl
        · cases h

/-- C8: supplying a value for a declared positional prop name both
positionally (the name is the `i`-th declared name and at least `i+1`
positional values were given) and as a keyword argument always makes
`Component.context` raise a `TypeError`, whatever the values. -/
theorem context_duplicate_supply_raises (cc : ComponentClass) (args : List Value)
    (kwargs : List (String × Value)) (i : Nat) (n : String)
    (hn : (positional_prop_names cc).get? i = some n)
    (hi : i < args.length)
    (hk : (alookup kwargs n).isSome = true) :
    isTypeError (Component.context cc args kwargs) = true := by
  unfold Component.context
  by_cases harity : args.length > (positional_prop_names cc).length
  · simp [harity, isTypeError]
  · obtain ⟨v, hv⟩ := zip_mem_of_get (positional_prop_names cc) args i n hn hi
    have hprov : (alookup (dofList ((positional_prop_names cc).zip args)) n).isSome
        = true :=
      alookup_dupdate_isSome_mem _ _ _ _ hv
    obtain ⟨w, hw⟩ := Option.isSome_iff_exists.mp hprov
    have hstep : ∀ fpa, ∃ e,
        contextStep (dofList ((positional_prop_names cc).zip args)) kwargs
          (positional_prop_defaults cc) cc.keyword_props fpa n = .error e := by
      intro fpa
      refine ⟨.typeError ("Received multiple values for argument " ++ n), ?_⟩
      unfold contextStep
      simp only [hw, hk, if_true]
    have hmem : n ∈ positional_prop_names cc := List.get?_mem hn
    obtain ⟨e, he⟩ := contextLoop_error_of_step _ _ _ _ _ hstep
      (positional_prop_names cc) [] hmem
    have hte := contextLoop_error_isTE _ _ _ _ _ [] e he
    simp only [harity, if_false, he]
    cases e <;> simp_all [PyErr.isTE, isTypeError]

/-- Closed instance of `context_duplicate_supply_raises`: the component with
required positional prop `x`, called with `x` supplied both positionally and
by keyword. -/
theorem context_duplicate_supply_raises_witness :
    isTypeError (Component.context ccPos [Value.str "v"] [("x", Value.str "w")]) = true :=
  context_duplicate_supply_raises ccPos [Value.str "v"] [("x", Value.str "w")] 0 "x"
    rfl (by decide) rfl

/-- C9: for a component declaring a keyword prop `x` whose default is the
required sentinel `Ellipsis`, any call to `Component.context` that does not
supply `x` as a keyword argument raises a `TypeError`. -/
theorem context_missing_required_kw_raises (cc : ComponentClass) (args : List Value)
    (kwargs : List (String × Value)) (x : String)
    (hx : alookup cc.keyword_props x = some Value.ellipsis)
    (hk : alookup kwargs x = none) :
    isTypeError (Component.context cc args kwargs) = true := by
  unfold Component.context
  by_cases harity : args.length > (positional_prop_names cc).length
  · simp [harity, isTypeError]
  · simp only [harity, if_false]
    cases hl : contextLoop (dofList ((positional_prop_names cc).zip args)) kwargs
        (positional_prop_defaults cc) cc.keyword_props (positional_prop_names cc) [] with
    | error e =>
      have hte := contextLoop_error_isTE _ _ _ _ _ [] e hl
      cases e <;> simp_all [PyErr.isTE, isTypeError]
    | ok fpa =>
      by_cases hext : (!(context_extra_kwargs cc kwargs).isEmpty
          && !cc.allow_arbitrary_keyword_props) = true
      · simp [hext, isTypeError]
      · have hmem : (x, Value.ellipsis) ∈ cc.keyword_props := alookup_mem _ _ _ hx
        have hmemf : (x, Value.ellipsis) ∈ context_missing_kwargs cc kwargs := by
          unfold context_missing_kwargs
          rw [List.mem_filter]
          exact ⟨hmem, by simp [hk]⟩
        have hne : (context_missing_kwargs cc kwargs).isEmpty = false := by
          cases hc : context_missing_kwargs cc kwargs with
          | nil => rw [hc] at hmemf; cases hmemf
          | cons a l => rfl
        simp [hext, hne, isTypeError]

/-- Closed instance of `context_missing_required_kw_raises`: the component
with required keyword prop `x`, called without supplying `x`. -/
theorem context_missing_required_kw_raises_witness :
    isTypeError (Component.context ccKw [] []) = true :=
  context_missing_required_kw_raises ccKw [] [] "x" rfl rfl

/-! ## C7: class-definition-time validation of positional props -/

theorem dropWhile_head_not {α : Type} (p : α → Bool) :
    ∀ (l : List α) (b : α) (t : List α), l.dropWhile p = b :: t → p b = false := by
  intro l
  induction l with
  | nil =>
    intro b t h
    cases h
  | cons a rest ih =>
    intro b t h
    by_cases ha : p a = true
    · rw [List.dropWhile_cons, if_pos ha] at h
      exact ih b t h
    · rw [List.dropWhile_cons, if_neg ha] at h
      cases h
      simpa using ha

theorem dropWhile_nil_forall {α : Type} (p : α → Bool) :
    ∀ (l : List α), l.dropWhile p = [] → ∀ x ∈ l, p x = true := by
  intro l
  induction l with
  | nil =>
    intro _ x hx
    cases hx
  | cons a rest ih =>
    intro h x hx
    by_cases ha : p a = true
    · rw [List.dropWhile_cons, if_pos ha] at h
      rcases List.mem_cons.mp hx with rfl | hx'
      · exact ha
      · exact ih h x hx'
    · rw [List.dropWhile_cons, if_neg ha] at h
      cases h

/-- C7: declaring a component class succeeds the positional-prop validation
exactly when no required positional prop follows an optional one — i.e. when
everything after an optional entry is again optional; otherwise
`__init_subclass__` raises `SyntaxError` at class-definition time. -/
theorem validate_positional_props_ok_iff (props : List PosProp) :
    validate_positional_props props = .ok () ↔
      ∀ (i j : Nat) (a b : PosProp), i < j →
        props.get? i = some a → props.get? j = some b →
        is_optional_arg a = true → is_optional_arg b = true := by
  constructor
  · intro hok i j a b hij hgi hgj hopt
    cases e : props.dropWhile (fun p => !is_optional_arg p) with
    | nil =>
      have := dropWhile_nil_forall _ props e a (List.get?_mem hgi)
      simp [hopt] at this
    | cons c t =>
      unfold validate_positional_props at hok
      rw [e] at hok
      have hok' : (if (t.all fun p => is_optional_arg p) = true then (Except.ok () : Except PyErr Unit)
          else Except.error (PyErr.syntaxError
            "Required positional argument follows optional argument")) = Except.ok () := hok
      by_cases hall : t.all (fun p => is_optional_arg p) = true
      · have hsplit : props.takeWhile (fun p => !is_optional_arg p) ++ c :: t = props := by
          rw [← e]
          exact List.takeWhile_append_dropWhile _ props
        have hiL : (props.takeWhile (fun p => !is_optional_arg p)).length ≤ i := by
          by_contra hlt
          push_neg at hlt
          have e2 : (props.takeWhile (fun p => !is_optional_arg p) ++ c :: t).get? i
              = (props.takeWhile (fun p => !is_optional_arg p)).get? i :=
            List.get?_append hlt
          rw [hsplit, hgi] at e2
          have hmemL : a ∈ props.takeWhile (fun p => !is_optional_arg p) :=
            List.get?_mem e2.symm
          have := List.mem_takeWhile_imp hmemL
          simp [hopt] at this
        have e3 : (props.takeWhile (fun p => !is_optional_arg p) ++ c :: t).get? j
            = (c :: t).get? (j - (props.takeWhile (fun p => !is_optional_arg p)).length) :=
          List.get?_append_right (by omega)
        rw [hsplit, hgj] at e3
        have hgt : t.get? (j - (props.takeWhile (fun p => !is_optional_arg p)).length - 1)
            = some b := by
          cases hd : j - (props.takeWhile (fun p => !is_optional_arg p)).length with
          | zero => omega
          | succ m =>
            rw [hd] at e3
            simpa [hd] using e3.symm
        have hbt : b ∈ t := List.get?_mem hgt
        exact List.all_eq_true.mp hall b hbt
      · rw [if_neg hall] at hok'
        cases hok'
  · intro hforall
    cases e : props.dropWhile (fun p => !is_optional_arg p) with
    | nil => simp [validate_positional_props, e]
    | cons c t =>
      have hc : is_optional_arg c = true := by
        have := dropWhile_head_not _ props c t e
        simpa using this
      have hsplit : props.takeWhile (fun p => !is_optional_arg p) ++ c :: t = props := by
        rw [← e]
        exact List.takeWhile_append_dropWhile _ props
      have hall : t.all (fun p => is_optional_arg p) = true := by
        rw [List.all_eq_true]
        intro x hx
        obtain ⟨k, hk⟩ := List.mem_iff_get?.mp hx
        refine hforall (props.takeWhile (fun p => !is_optional_arg p)).length
          ((props.takeWhile (fun p => !is_optional_arg p)).length + 1 + k) c x
          (by omega) ?_ ?_ hc
        · have e2 : (props.takeWhile (fun p => !is_optional_arg p) ++ c :: t).get?
              (props.takeWhile (fun p => !is_optional_arg p)).length
              = (c :: t).get? 0 :=
            (List.get?_append_right (Nat.le_refl _)).trans (by simp)
          rw [hsplit] at e2
          simpa using e2
        · have e2 : (props.takeWhile (fun p => !is_optional_arg p) ++ c :: t).get?
              ((props.takeWhile (fun p => !is_optional_arg p)).length + 1 + k)
              = (c :: t).get?
                  ((props.takeWhile (fun p => !is_optional_arg p)).length + 1 + k
                    - (props.takeWhile (fun p => !is_optional_arg p)).length) :=
            List.get?_append_right (by omega)
          rw [hsplit] at e2
          have harith : (props.takeWhile (fun p => !is_optional_arg p)).length + 1 + k
              - (props.takeWhile (fun p => !is_optional_arg p)).length = k + 1 := by
            omega
          rw [harith] at e2
          rw [e2]
          simpa using hk
      simp [validate_positional_props, e, hall]

/-- Closed instance of `validate_positional_props_ok_iff`: a declaration with
two required props (no optional prop precedes a required one) is accepted. -/
theorem validate_positional_props_ok_iff_witness :
    validate_positional_props [PosProp.name "t", PosProp.name "u"] = .ok () := by
  apply (validate_positional_props_ok_iff [PosProp.name "t", PosProp.name "u"]).mpr
  intro i j a b hij hgi hgj hopt
  have hmem : a ∈ [PosProp.name "t", PosProp.name "u"] := List.get?_mem hgi
  rcases List.mem_cons.mp hmem with rfl | hmem'
  · cases hopt
  · rcases List.mem_cons.mp hmem' with rfl | hmem''
    · cases hopt
    · cases hmem''

/-! ## C3, C10, C5: the `ComponentNode.render` pipeline -/

theorem baseRender_isTypeError (tmpl : TemplateM) (ctx : Ctx)
    (sf : Option (List (String × List TNode))) (debug : Bool) :
    isTypeError (BaseComponent.render tmpl ctx sf debug) = true := by
  cases sf with
  | none => rfl
  | some s => rfl

/-- C3: `ComponentNode.render` calls the component's `render` with only the
context argument, so `slots_filled` keeps its default `None` and line 62's
`dict(None)` raises `TypeError` whenever the earlier steps (dependency check
and argument resolution) pass.  The call-site slot contents stored into
`component.slots` by `ComponentNode.__init__` play no role: the conclusion
holds for every value of `node.slots` and never mentions it. -/
theorem componentNode_render_dict_none_raises (node : ComponentNode) (tmpl : TemplateM)
    (debug : Bool) (ctx : Ctx)
    (hdep : ctxLookup ctx RENDERED_COMPONENTS_CONTEXT_KEY = none →
      (node.component.mediaNonempty && debug) = false)
    (hctx : isOk (Component.context node.component
      (node.context_args.map (safe_resolve ctx))
      (node.context_kwargs.map (fun p => (p.1, safe_resolve ctx p.2)))) = true) :
    node.render tmpl debug ctx =
      .error (.typeError "NoneType object is not iterable") := by
  have hdc : ∃ s, depCheck node.component debug ctx = .ok s := by
    unfold depCheck
    cases hl : ctxLookup ctx RENDERED_COMPONENTS_CONTEXT_KEY with
    | some v => exact ⟨some v, rfl⟩
    | none =>
      refine ⟨none, ?_⟩
      rw [hdep hl]
      rfl
  obtain ⟨s, hs⟩ := hdc
  obtain ⟨d, hd⟩ : ∃ d, Component.context node.component
      (node.context_args.map (safe_resolve ctx))
      (node.context_kwargs.map (fun p => (p.1, safe_resolve ctx p.2))) = .ok d := by
    cases hc : Component.context node.component
        (node.context_args.map (safe_resolve ctx))
        (node.context_kwargs.map (fun p => (p.1, safe_resolve ctx p.2))) with
    | error e =>
      rw [hc] at hctx
      cases hctx
    | ok d => exact ⟨d, rfl⟩
  unfold ComponentNode.render ComponentNode.renderWith
  rw [hs, hd]
  rfl

/-- Closed instance of `componentNode_render_dict_none_raises`: a no-prop
component invoked with a call-site slot, in a context carrying the
dependency-tracking set. -/
theorem componentNode_render_dict_none_raises_witness :
    ComponentNode.render nodePlain tmplPlain false ctxWithDeps =
      .error (.typeError "NoneType object is not iterable") :=
  componentNode_render_dict_none_raises nodePlain tmplPlain false ctxWithDeps
    (by decide) rfl

theorem renderFull_isTypeError_of_depCheck_ok (node : ComponentNode) (tmpl : TemplateM)
    (debug : Bool) (ctx : Ctx) (s : Option Value)
    (hdc : depCheck node.component debug ctx = .ok s) :
    isTypeError (node.render tmpl debug ctx) = true := by
  unfold ComponentNode.render ComponentNode.renderWith
  rw [hdc]
  cases hc : Component.context node.component
      (node.context_args.map (safe_resolve ctx))
      (node.context_kwargs.map (fun p => (p.1, safe_resolve ctx p.2))) with
  | error e =>
    have hte := context_error_isTE _ _ _ _ hc
    cases e <;> simp_all [PyErr.isTE, isTypeError]
  | ok d => exact baseRender_isTypeError tmpl _ none debug

/-- C10: when the caller context lacks the dependency-tracking set,
`ComponentNode.render` raises `ImproperlyConfigured` exactly when the
component declares non-empty media and debug mode is enabled; with debug off,
or with empty media, the missing set is tolerated and this error cannot arise
(whatever the pipeline does further down is a `TypeError`, never this check's
error). -/
theorem componentNode_missing_depset_iff (node : ComponentNode) (tmpl : TemplateM)
    (debug : Bool) (ctx : Ctx)
    (hmiss : ctxLookup ctx RENDERED_COMPONENTS_CONTEXT_KEY = none) :
    (node.render tmpl debug ctx
        = .error (.improperlyConfigured improperlyConfiguredMsg))
      ↔ (node.component.mediaNonempty = true ∧ debug = true) := by
  constructor
  · intro herr
    by_contra hcon
    have hmd : (node.component.mediaNonempty && debug) = false := by
      cases hm : node.component.mediaNonempty <;> cases hdb : debug <;> simp_all
    have hdc : depCheck node.component debug ctx = .ok none := by
      unfold depCheck
      rw [hmiss, hmd]
      rfl
    have hte := renderFull_isTypeError_of_depCheck_ok node tmpl debug ctx none hdc
    rw [herr] at hte
    simp [isTypeError] at hte
  · rintro ⟨hm, hdb⟩
    unfold ComponentNode.render ComponentNode.renderWith depCheck
    rw [hmiss, hm, hdb]
    rfl

/-- Closed instance of `componentNode_missing_depset_iff`: the media-declaring
component rendered in debug mode in an empty context raises the
`ImproperlyConfigured` error. -/
theorem componentNode_missing_depset_iff_witness :
    ComponentNode.render nodeMedia tmplPlain true ([] : Ctx) =
      .error (.improperlyConfigured improperlyConfiguredMsg) :=
  (componentNode_missing_depset_iff nodeMedia tmplPlain true ([] : Ctx) rfl).mpr
    ⟨rfl, rfl⟩

/-- C5: context isolation.  First conjunct: for an `only` (isolated)
invocation, the render result is a function of the resolved argument values
and the caller context's dependency-set entry alone — two caller contexts
agreeing on those yield identical results, whatever other variables they
hold.  Second conjunct: without the flag, once the dependency check and
argument resolution succeed, the component's render function receives the
caller's full context with the component context pushed on top, so every
caller-scope variable remains visible. -/
theorem componentNode_isolation (node : ComponentNode) (debug : Bool)
    (renderFn : Ctx → Except PyErr String) :
    (node.isolated_context = true →
      ∀ ctx1 ctx2 : Ctx,
        ctxLookup ctx1 RENDERED_COMPONENTS_CONTEXT_KEY
          = ctxLookup ctx2 RENDERED_COMPONENTS_CONTEXT_KEY →
        node.context_args.map (safe_resolve ctx1)
          = node.context_args.map (safe_resolve ctx2) →
        node.context_kwargs.map (fun p => (p.1, safe_resolve ctx1 p.2))
          = node.context_kwargs.map (fun p => (p.1, safe_resolve ctx2 p.2)) →
        node.renderWith debug renderFn ctx1 = node.renderWith debug renderFn ctx2)
    ∧ (node.isolated_context = false →
      ∀ (ctx : Ctx) (s : Option Value) (d : List (String × Value)),
        depCheck node.component debug ctx = .ok s →
        Component.context node.component (node.context_args.map (safe_resolve ctx))
          (node.context_kwargs.map (fun p => (p.1, safe_resolve ctx p.2))) = .ok d →
        node.renderWith debug renderFn ctx = renderFn (d :: ctx)) := by
  constructor
  · intro hiso ctx1 ctx2 hdep hargs hkwargs
    unfold ComponentNode.renderWith depCheck
    rw [hdep, hargs, hkwargs, hiso]
    rfl
  · intro hiso ctx s d hdc hctx
    unfold ComponentNode.renderWith
    rw [hdc, hctx, hiso]
    rfl

/-- Closed instance of `componentNode_isolation`: the isolated invocation of
`ccPos` with argument `x` renders identically over two caller contexts that
differ in the unpassed variable `y`, even under a render function that probes
`y`. -/
theorem componentNode_isolation_witness :
    ComponentNode.renderWith nodeIso false renderProbeY ctxOuterA
      = ComponentNode.renderWith nodeIso false renderProbeY ctxOuterB :=
  (componentNode_isolation nodeIso false renderProbeY).1 rfl ctxOuterA ctxOuterB
    rfl rfl rfl

/-! ## C4: dependency placeholder substitution -/

theorem mapWithIndex_congr {α β : Type} (f g : Nat → α → β) (l : List α)
    (h : ∀ i a, f i a = g i a) : mapWithIndex f l = mapWithIndex g l := by
  induction l generalizing f g with
  | nil => rfl
  | cons a rest ih =>
    unfold mapWithIndex
    rw [h 0 a]
    congr 1
    exact ih _ _ (fun i x => h (i + 1) x)

theorem reSub_spec : ∀ (body : List Chunk) (cs js : String),
    reSub (DependencyReplacer.mk cs js) body =
      mapWithIndex (fun i c =>
        match c with
        | .text s => s
        | .cssMarker => if (body.take i).any isCssMarker then "" else cs
        | .jsMarker => if (body.take i).any isJsMarker then "" else js) body := by
  intro body
  induction body with
  | nil => intro cs js; rfl
  | cons c rest ih =>
    intro cs js
    cases c with
    | text s =>
      unfold reSub mapWithIndex
      rw [ih cs js]
      congr 1
    | cssMarker =>
      simp only [reSub, DependencyReplacer.call, mapWithIndex]
      rw [ih "" js]
      congr 1
      apply mapWithIndex_congr
      intro i x
      cases x with
      | text s2 => rfl
      | cssMarker => simp [List.take_succ_cons, isCssMarker]
      | jsMarker => simp [List.take_succ_cons, isCssMarker, isJsMarker]
    | jsMarker =>
      simp only [reSub, DependencyReplacer.call, mapWithIndex]
      rw [ih cs ""]
      congr 1
      apply mapWithIndex_congr
      intro i x
      cases x with
      | text s2 => rfl
      | cssMarker => simp [List.take_succ_cons, isCssMarker, isJsMarker]
      | jsMarker => simp [List.take_succ_cons, isJsMarker]

/-- C4: the middleware substitution pass over a tokenised response body equals
the positional specification: the first CSS placeholder (no earlier CSS
placeholder before it) becomes the combined CSS markup and every later CSS
placeholder becomes the empty string, and independently the first JS
placeholder becomes the JS markup and every later JS placeholder the empty
string, with text segments unchanged — for every body, including one with two
CSS markers and one JS marker. -/
theorem dependencyReplacer_first_occurrence (css js : String) (body : List Chunk) :
    reSub (DependencyReplacer.mk css js) body = specReplace css js body := by
  unfold specReplace
  exact reSub_spec body css js
